import Mathlib

/-!
Verification development for the Lakebase todo-app provisioner.

This file gives a shallow embedding of the non-trivial logic of the
repository — the idempotent resource provisioner (`src/todo_app/infra.py`),
the OAuth token cache (`src/todo_app/config.py`), the database bootstrap
retry loop, the CLI defaults (`scripts/dev_setup.py`) and the todo update
path (`src/todo_app/db/postgres.py`) — and proves the spec's testable
properties against it.

The control plane (Databricks SDK `postgres` client) is an external
collaborator; each `ensure_*` operation is therefore parameterised by a
record of operations over an abstract state `σ`, so that the same
definition can be run against the honest sequential control plane (for
idempotence) and against adversarial/racing response schedules (for the
error-recovery claims).  Resources are represented by their hierarchical
names, the only attribute the provisioner logic inspects; creation
payloads (pg version, autoscaling bounds, role auth method) are carried
by the real calls but never branched on, so they are elided here.
-/

set_option autoImplicit false

deriving instance DecidableEq for Except

namespace TodoApp

/-! ## Character-level utilities (Python string methods, ASCII scope)

All identities this system handles (emails, UUID client ids, resource
ids) are ASCII, where Python's `str.lower`/`str.isalpha`/`str.isdigit`
coincide with the byte-range definitions below. -/

/-- Python `str.lower`, character-wise: map `A`-`Z` (codes 65-90) to codes 97-122. -/
def pyLowerChar (c : Char) : Char :=
  if 65 ≤ c.toNat ∧ c.toNat ≤ 90 then Char.ofNat (c.toNat + 32) else c

/-- Python `str.isalpha` on a single ASCII character. -/
def pyIsAlphaB (c : Char) : Bool :=
  (65 ≤ c.toNat && c.toNat ≤ 90) || (97 ≤ c.toNat && c.toNat ≤ 122)

/-- Python `str.isdigit` on a single ASCII character. -/
def pyIsDigitB (c : Char) : Bool :=
  48 ≤ c.toNat && c.toNat ≤ 57

/-- Python `str.replace(a, b)` for one-character patterns, character-wise. -/
def pyReplaceChar (s : List Char) (a b : Char) : List Char :=
  s.map fun c => if c = a then b else c

/-- Does `pat` occur at the start of `s`? (helper for Python's `in`). -/
def listStartsWith : List Char → List Char → Bool
  | [], _ => true
  | _ :: _, [] => false
  | p :: ps, c :: cs => p == c && listStartsWith ps cs

/-- Python's `pat in s`: contiguous-substring containment. -/
def listContainsSub (s pat : List Char) : Bool :=
  match s with
  | [] => pat.isEmpty
  | _ :: cs => listStartsWith pat s || listContainsSub cs pat

/-- Python's `pat in s` on strings. -/
def strContainsSub (s pat : String) : Bool :=
  listContainsSub s.data pat.data

/-! ## Role-id normalization (`LakebaseProvisioner.ensure_role`, infra.py 184-188)

```python
role_id = postgres_role.replace("@", "-").replace(".", "-").lower()
# role_id must match ^[a-z]([a-z0-9-]{0,61}[a-z0-9])?$
if role_id and not role_id[0].isalpha():
    role_id = f"sp-{role_id}"
```
-/

/-- The derived role id, on character lists. -/
def roleIdChars (s : List Char) : List Char :=
  let r := (pyReplaceChar (pyReplaceChar s '@' '-') '.' '-').map pyLowerChar
  match r with
  | [] => r
  | c :: _ => if pyIsAlphaB c then r else 's' :: 'p' :: '-' :: r

/-- The derived role id, on strings. -/
def roleIdStr (s : String) : String :=
  String.mk (roleIdChars s.data)

/-- One character of the claim's description of the normalization: `@` and
`.` become `-`, everything is lowercased. -/
def normChar (c : Char) : Char :=
  pyLowerChar (if c = '@' ∨ c = '.' then '-' else c)

/-- Modelled from the spec's words, for comparison with `roleIdChars`:
"the identity with every `@` and every `.` replaced by `-` and lowercased,
with a literal alphabetic prefix prepended when the result begins with a
non-alphabetic character". -/
def specRoleIdChars (s : List Char) : List Char :=
  let r := s.map normChar
  match r with
  | [] => r
  | c :: _ => if pyIsAlphaB c then r else 's' :: 'p' :: '-' :: r

/-- Class `[a-z]`. -/
def isLowerAlphaB (c : Char) : Bool :=
  97 ≤ c.toNat && c.toNat ≤ 122

/-- Class `[a-z0-9]` (the class allowed as the final character of a role id). -/
def isLowerAlnumB (c : Char) : Bool :=
  isLowerAlphaB c || pyIsDigitB c

/-- Class `[a-z0-9-]` (the class allowed in the middle of a role id). -/
def isRoleMidB (c : Char) : Bool :=
  isLowerAlnumB c || c == '-'

/-- The role-id pattern `^[a-z]([a-z0-9-]{0,61}[a-z0-9])?$` as a decidable
recogniser on character lists. -/
def rolePatternOk (l : List Char) : Bool :=
  match l with
  | [] => false
  | c :: rest =>
    isLowerAlphaB c &&
      (rest.isEmpty ||
        (decide (rest.length ≤ 62) && rest.dropLast.all isRoleMidB &&
          isLowerAlnumB (rest.getLastD ' ')))

/-- Character class of the identities the role-id pattern claim is amended
to: ASCII letters, digits, `@`, `.` and `-` (covers emails and UUID client
ids, the identities this system passes to `ensure_role`). -/
def allowedIdentChar (c : Char) : Bool :=
  pyIsAlphaB c || pyIsDigitB c || c == '@' || c == '.' || c == '-'

/-- ASCII letter or digit. -/
def letterOrDigitB (c : Char) : Bool :=
  pyIsAlphaB c || pyIsDigitB c

/-! ## Control-plane model

Responses of the external control plane.  `GetResult.notFoundE` stands for
the `NotFound` exception of `get_<kind>`; `CreateResult` covers the
outcomes of `create_<kind>(...)` followed by `op.wait()`. -/

inductive GetResult where
  | found (name : String)
  | notFoundE
  deriving DecidableEq

inductive CreateResult where
  | created (name : String)
  | alreadyExistsE
  | badRequestE (msg : String)
  deriving DecidableEq

/-- Errors an ensure-operation can propagate to its caller. -/
inductive PErr where
  | notFoundErr
  | alreadyExistsErr
  | badRequestErr (msg : String)
  deriving DecidableEq

/-- Trace of control-plane calls issued by one operation.  `updateCall`
records the field-mask paths passed to `update_branch`. -/
inductive Call where
  | getCall
  | createCall
  | listCall
  | updateCall (maskPaths : List String)
  deriving DecidableEq

/-- Number of create calls in a trace. -/
def createCalls (t : List Call) : Nat :=
  t.countP fun c => match c with | .createCall => true | _ => false

/-- Number of list calls in a trace. -/
def listCalls (t : List Call) : Nat :=
  t.countP fun c => match c with | .listCall => true | _ => false

/-- Number of get calls in a trace. -/
def getCalls (t : List Call) : Nat :=
  t.countP fun c => match c with | .getCall => true | _ => false

/-- Control-plane surface used by `ensure_project`. -/
structure ProjectOps (σ : Type) where
  get : σ → String → σ × GetResult
  create : σ → String → σ × CreateResult

/-- Model of `LakebaseProvisioner.ensure_project` (infra.py 58-77). -/
def ensure_project {σ : Type} (ops : ProjectOps σ) (s : σ) (project_id : String) :
    σ × Except PErr String × List Call :=
  let name := "projects/" ++ project_id
  match ops.get s name with
  | (s₁, .found p) => (s₁, .ok p, [.getCall])
  | (s₁, .notFoundE) =>
    match ops.create s₁ project_id with
    | (s₂, .created p) => (s₂, .ok p, [.getCall, .createCall])
    | (s₂, .alreadyExistsE) =>
      match ops.get s₂ name with
      | (s₃, .found p) => (s₃, .ok p, [.getCall, .createCall, .getCall])
      | (s₃, .notFoundE) => (s₃, .error .notFoundErr, [.getCall, .createCall, .getCall])
    | (s₂, .badRequestE m) => (s₂, .error (.badRequestErr m), [.getCall, .createCall])

/-- Control-plane surface used by `ensure_branch`: create takes the parent
name and the branch id. -/
structure BranchOps (σ : Type) where
  get : σ → String → σ × GetResult
  create : σ → String → String → σ × CreateResult

/-- Model of `LakebaseProvisioner.ensure_branch` (infra.py 79-100). -/
def ensure_branch {σ : Type} (ops : BranchOps σ) (s : σ) (project_id branch_id : String) :
    σ × Except PErr String × List Call :=
  let parent := "projects/" ++ project_id
  let name := parent ++ "/branches/" ++ branch_id
  match ops.get s name with
  | (s₁, .found b) => (s₁, .ok b, [.getCall])
  | (s₁, .notFoundE) =>
    match ops.create s₁ parent branch_id with
    | (s₂, .created b) => (s₂, .ok b, [.getCall, .createCall])
    | (s₂, .alreadyExistsE) =>
      match ops.get s₂ name with
      | (s₃, .found b) => (s₃, .ok b, [.getCall, .createCall, .getCall])
      | (s₃, .notFoundE) => (s₃, .error .notFoundErr, [.getCall, .createCall, .getCall])
    | (s₂, .badRequestE m) => (s₂, .error (.badRequestErr m), [.getCall, .createCall])

/-- Control-plane surface used by `ensure_endpoint`. -/
structure EndpointOps (σ : Type) where
  get : σ → String → σ × GetResult
  create : σ → String → String → σ × CreateResult
  list : σ → String → σ × List String

/-- Model of `LakebaseProvisioner.ensure_endpoint` (infra.py 127-174).  A `BadRequest`
from create whose message contains `"already exists"` triggers the
list-and-reuse fallback; the first listed endpoint is returned, and if the
list is empty the original error is re-raised. -/
def ensure_endpoint {σ : Type} (ops : EndpointOps σ) (s : σ)
    (project_id branch_id endpoint_id : String) :
    σ × Except PErr String × List Call :=
  let parent := "projects/" ++ project_id ++ "/branches/" ++ branch_id
  let name := parent ++ "/endpoints/" ++ endpoint_id
  match ops.get s name with
  | (s₁, .found e) => (s₁, .ok e, [.getCall])
  | (s₁, .notFoundE) =>
    match ops.create s₁ parent endpoint_id with
    | (s₂, .created e) => (s₂, .ok e, [.getCall, .createCall])
    | (s₂, .alreadyExistsE) =>
      match ops.get s₂ name with
      | (s₃, .found e) => (s₃, .ok e, [.getCall, .createCall, .getCall])
      | (s₃, .notFoundE) => (s₃, .error .notFoundErr, [.getCall, .createCall, .getCall])
    | (s₂, .badRequestE m) =>
      if strContainsSub m "already exists" = false then
        (s₂, .error (.badRequestErr m), [.getCall, .createCall])
      else
        match ops.list s₂ parent with
        | (s₃, []) => (s₃, .error (.badRequestErr m), [.getCall, .createCall, .listCall])
        | (s₃, e :: _) => (s₃, .ok e, [.getCall, .createCall, .listCall])

/-- Control-plane surface used by `ensure_role`. -/
structure RoleOps (σ : Type) where
  get : σ → String → σ × GetResult
  create : σ → String → String → σ × CreateResult

/-- Model of `LakebaseProvisioner.ensure_role` (infra.py 176-214).  Both
`AlreadyExists` and `BadRequest` from create are treated as the benign
"mapping already exists" case: the method returns `None` (here `none`)
without any further fetch. -/
def ensure_role {σ : Type} (ops : RoleOps σ) (s : σ)
    (project_id branch_id postgres_role : String) :
    σ × Except PErr (Option String) × List Call :=
  let parent := "projects/" ++ project_id ++ "/branches/" ++ branch_id
  let role_id := roleIdStr postgres_role
  let name := parent ++ "/roles/" ++ role_id
  match ops.get s name with
  | (s₁, .found r) => (s₁, .ok (some r), [.getCall])
  | (s₁, .notFoundE) =>
    match ops.create s₁ parent role_id with
    | (s₂, .created r) => (s₂, .ok (some r), [.getCall, .createCall])
    | (s₂, .alreadyExistsE) => (s₂, .ok none, [.getCall, .createCall])
    | (s₂, .badRequestE _) => (s₂, .ok none, [.getCall, .createCall])

/-! ### Honest sequential control plane

The no-race instantiation: the state is the list of existing resource
names for one kind; get finds a name exactly when it is present, create
adds the deterministic name (or reports `AlreadyExists` when present). -/

/-- Honest control plane for projects. -/
def honestProjectOps : ProjectOps (List String) where
  get s name := (s, if s.contains name then .found name else .notFoundE)
  create s project_id :=
    let name := "projects/" ++ project_id
    if s.contains name then (s, .alreadyExistsE) else (name :: s, .created name)

/-- Honest control plane for branches. -/
def honestBranchOps : BranchOps (List String) where
  get s name := (s, if s.contains name then .found name else .notFoundE)
  create s parent branch_id :=
    let name := parent ++ "/branches/" ++ branch_id
    if s.contains name then (s, .alreadyExistsE) else (name :: s, .created name)

/-- Honest control plane for endpoints. -/
def honestEndpointOps : EndpointOps (List String) where
  get s name := (s, if s.contains name then .found name else .notFoundE)
  create s parent endpoint_id :=
    let name := parent ++ "/endpoints/" ++ endpoint_id
    if s.contains name then (s, .alreadyExistsE) else (name :: s, .created name)
  list s parent := (s, s.filter fun n => n.startsWith (parent ++ "/endpoints/"))

/-- Honest control plane for roles. -/
def honestRoleOps : RoleOps (List String) where
  get s name := (s, if s.contains name then .found name else .notFoundE)
  create s parent role_id :=
    let name := parent ++ "/roles/" ++ role_id
    if s.contains name then (s, .alreadyExistsE) else (name :: s, .created name)

/-! ## Branch protection (`protect_branch`, infra.py 102-125, and
`_SnakeCaseFieldMask`, infra.py 28-40) -/

/-- The `spec` payload of a branch, as far as `protect_branch` inspects it
(`is_protected` is an optional bool in the SDK model). -/
structure BranchSpecObj where
  is_protected : Option Bool
  deriving DecidableEq

/-- A branch resource: name plus optional spec. -/
structure BranchObj where
  name : String
  spec : Option BranchSpecObj
  deriving DecidableEq

/-- Python truthiness of `branch.spec and branch.spec.is_protected`. -/
def branchProtectedB (b : BranchObj) : Bool :=
  match b.spec with
  | none => false
  | some sp => sp.is_protected == some true

/-- Outcome of `get_branch` inside `protect_branch` (not wrapped in a
`try`, so `NotFound` propagates). -/
inductive BGetResult where
  | foundB (b : BranchObj)
  | notFoundB
  deriving DecidableEq

/-- Outcome of `update_branch(...).wait()`. -/
inductive BUpdateResult where
  | updatedB (b : BranchObj)
  | failedB (e : PErr)
  deriving DecidableEq

/-- Control-plane surface used by `protect_branch`; `update` receives the
field-mask paths list handed to `_SnakeCaseFieldMask`. -/
structure ProtectOps (σ : Type) where
  get : σ → String → σ × BGetResult
  update : σ → String → BranchObj → List String → σ × BUpdateResult

/-- Model of `_SnakeCaseFieldMask.ToJsonString` (infra.py 39-40): joins the paths
with `","` and performs no camelCase re-encoding. -/
def maskToJsonString (paths : List String) : String :=
  String.intercalate "," paths

/-- Model of `LakebaseProvisioner.protect_branch` (infra.py 102-125). -/
def protect_branch {σ : Type} (ops : ProtectOps σ) (s : σ) (project_id branch_id : String) :
    σ × Except PErr (Option BranchObj) × List Call :=
  let name := "projects/" ++ project_id ++ "/branches/" ++ branch_id
  match ops.get s name with
  | (s₁, .notFoundB) => (s₁, .error .notFoundErr, [.getCall])
  | (s₁, .foundB branch) =>
    if branchProtectedB branch then
      (s₁, .ok (some branch), [.getCall])
    else
      match ops.update s₁ name ⟨name, some ⟨some true⟩⟩ ["spec.is_protected"] with
      | (s₂, .updatedB b) => (s₂, .ok (some b), [.getCall, .updateCall ["spec.is_protected"]])
      | (s₂, .failedB (.badRequestErr _)) =>
        (s₂, .ok none, [.getCall, .updateCall ["spec.is_protected"]])
      | (s₂, .failedB e) => (s₂, .error e, [.getCall, .updateCall ["spec.is_protected"]])

/-! ## OAuth token manager (`OAuthTokenManager.get_token`, config.py 29-52)

Time is measured in minutes.  The mint environment is the outcome of
`generate_database_credential`: `Except.error ()` models an exception
(caught, logged, `None` returned), `Except.ok t` a credential whose
`.token` field is `t`. -/

/-- Cache state of `OAuthTokenManager`. -/
structure TokenCache where
  token : Option String
  expires_at : Option Int
  endpoint_name : Option String
  deriving DecidableEq

/-- The fresh cache (`__init__`). -/
def emptyTokenCache : TokenCache := ⟨none, none, none⟩

/-- Python truthiness of an optional string (`None` and `""` are falsy). -/
def pyTruthyStr (o : Option String) : Bool :=
  match o with
  | none => false
  | some s => s ≠ ""

/-- The cache-hit test of `get_token`: cached token truthy, same endpoint
name, expiry present, and now strictly before expiry minus 5 minutes. -/
def cacheHitB (c : TokenCache) (now : Int) (endpoint_name : String) : Bool :=
  pyTruthyStr c.token && c.endpoint_name == some endpoint_name &&
    c.expires_at.isSome && decide (now < c.expires_at.getD 0 - 5)

/-- Model of `OAuthTokenManager.get_token`: returns the token (or `none`), the new
cache state, and the number of mint calls issued (0 or 1). -/
def getToken (mint : Except Unit (Option String)) (now : Int)
    (c : TokenCache) (endpoint_name : String) :
    Option String × TokenCache × Nat :=
  if endpoint_name = "" then (none, c, 0)
  else if cacheHitB c now endpoint_name then (c.token, c, 0)
  else
    match mint with
    | .error _ => (none, c, 1)
    | .ok t =>
      (t, { token := t, expires_at := some (now + 55), endpoint_name := some endpoint_name }, 1)

/-! ## Database bootstrap (`ensure_database`, infra.py 240-297)

The environment maps each attempt index (0-based) to the outcome of that
attempt's connect-and-create-database block. -/

/-- Outcome of one attempt of the retry loop. -/
inductive AttemptOutcome where
  | connected
  | duplicateDb
  | operationalErr (msg : String)
  | fatalErr (msg : String)
  deriving DecidableEq

/-- Result of `ensure_database`. -/
inductive DbOutcome where
  | success
  | raisedOperational (msg : String)
  | raisedOther (msg : String)
  deriving DecidableEq

/-- Observable run of `ensure_database`: final outcome, number of connection
attempts, number of credential mints, and the list of sleeps (seconds). -/
structure DbRun where
  outcome : DbOutcome
  attempts : Nat
  mints : Nat
  sleeps : List Nat
  deriving DecidableEq

/-- The `for attempt in range(3)` loop body of `ensure_database`. -/
def dbGo (env : Nat → AttemptOutcome) :
    List Nat → Nat → Nat → List Nat → Option String → DbRun
  | [], attemptsSoFar, mints, sleeps, lastErr =>
    { outcome := .raisedOperational (lastErr.getD ""), attempts := attemptsSoFar,
      mints := mints, sleeps := sleeps }
  | i :: rest, attemptsSoFar, mints, sleeps, _lastErr =>
    let mints' := if 0 < i then mints + 1 else mints
    let sleeps' := if 0 < i then sleeps ++ [5] else sleeps
    match env i with
    | .connected =>
      { outcome := .success, attempts := attemptsSoFar + 1, mints := mints', sleeps := sleeps' }
    | .duplicateDb =>
      { outcome := .success, attempts := attemptsSoFar + 1, mints := mints', sleeps := sleeps' }
    | .operationalErr m => dbGo env rest (attemptsSoFar + 1) mints' sleeps' (some m)
    | .fatalErr m =>
      { outcome := .raisedOther m, attempts := attemptsSoFar + 1, mints := mints', sleeps := sleeps' }

/-- Model of `LakebaseProvisioner.ensure_database`: one credential is minted before
the loop; the loop makes up to 3 attempts, sleeping 5 seconds and minting a
fresh credential before attempts 2 and 3; `DuplicateDatabase` is success;
only `OperationalError` is retried, and exhaustion re-raises the last one. -/
def ensureDatabase (env : Nat → AttemptOutcome) : DbRun :=
  dbGo env [0, 1, 2] 0 1 [] none

/-! ## Provisioning entry-point defaults (infra.py 216-223, 299-307, and
scripts/dev_setup.py 32-36, 52-60) -/

/-- The `provision_all` keyword default for `project_id`. -/
def provisionAllDefaultProjectId : String := "todo-app"

/-- The `provision_all` keyword default for `branch_id`. -/
def provisionAllDefaultBranchId : String := "production"

/-- The `provision_all` keyword default for `endpoint_id`. -/
def provisionAllDefaultEndpointId : String := "default"

/-- The `provision_ci` keyword default for `project_id`. -/
def provisionCiDefaultProjectId : String := "todo-app"

/-- The `provision_ci` keyword default for `branch_id`. -/
def provisionCiDefaultBranchId : String := "production"

/-- The `provision_ci` keyword default for `endpoint_id`. -/
def provisionCiDefaultEndpointId : String := "primary"

/-- The `provision_ci` keyword default for `database`. -/
def provisionCiDefaultDatabase : String := "todoapp"

/-- The `dev_setup.py` argparse default for `--project`. -/
def devSetupDefaultProject : String := "todo-app"

/-- The `dev_setup.py` argparse default for `--endpoint`. -/
def devSetupDefaultEndpoint : String := "default"

/-- Model of `_derive_branch_id` in `dev_setup.py`:
`"dev-" + user_name.split("@")[0].replace(".", "-").lower()`. -/
def deriveBranchId (userName : String) : String :=
  "dev-" ++ String.mk
    (((userName.data.takeWhile fun c => c ≠ '@').map fun c =>
      if c = '.' then '-' else c).map pyLowerChar)

/-! ## Todo update path (`PostgresDB.update_todo` / `get_todo`,
postgres.py 109-124, 172-218)

Rows carry every column of the `todos` table; timestamps are integers. -/

/-- One row of the `todos` table. -/
structure TodoRow where
  id : String
  title : String
  description : Option String
  completed : Bool
  priority : String
  user_email : Option String
  created_at : Int
  updated_at : Int
  deriving DecidableEq

/-- Model of `get_todo`: `SELECT ... FROM todos WHERE id = %s`, `fetchone`. -/
def getTodo (db : List TodoRow) (todo_id : String) : Option TodoRow :=
  db.find? fun r => r.id == todo_id

/-- Model of `update_todo`: returns the RETURNING row (or `none`), the new table
state, and whether an UPDATE statement was issued.  The SET-clause list is
built exactly as the code builds `updates`; when it is empty the method
returns `get_todo(todo_id)` without touching the database. -/
def updateTodo (db : List TodoRow) (now : Int) (todo_id : String)
    (title description : Option String) (completed : Option Bool) (priority : Option String) :
    Option TodoRow × List TodoRow × Bool :=
  let updates : List String :=
    (if title.isSome then ["title = %s"] else []) ++
    (if description.isSome then ["description = %s"] else []) ++
    (if completed.isSome then ["completed = %s"] else []) ++
    (if priority.isSome then ["priority = %s"] else [])
  if updates.isEmpty then
    (getTodo db todo_id, db, false)
  else
    let applySet := fun (r : TodoRow) =>
      { r with
        title := title.getD r.title
        description := if description.isSome then description else r.description
        completed := completed.getD r.completed
        priority := priority.getD r.priority
        updated_at := now }
    ((db.find? fun r => r.id == todo_id).map applySet,
     db.map fun r => if r.id == todo_id then applySet r else r,
     true)

/-! ## Concrete control-plane schedules

Scripted response environments used to evaluate the theorems on concrete
inputs (races and conflicts the honest sequential plane cannot exhibit). -/

/-- A racing plane for projects: the first fetch misses, create loses the
race, the re-fetch finds the resource.  The state counts calls made. -/
def projectRaceOps : ProjectOps Nat where
  get n _ := (n + 1, if n = 0 then .notFoundE else .found "projects/todo-app")
  create n _ := (n + 1, .alreadyExistsE)

/-- A racing plane for roles: fetch misses, create reports `AlreadyExists`.
A re-fetch (which `ensure_role` never performs) would find the role. -/
def roleRaceOps : RoleOps Nat where
  get n _ := (n + 1, if n = 0 then .notFoundE else .found "projects/p/branches/b/roles/alice-example-com")
  create n _ _ := (n + 1, .alreadyExistsE)

/-- A plane where endpoint creation fails with the "already exists under a
different name" conflict and one auto-provisioned endpoint is listed. -/
def endpointConflictOps : EndpointOps Unit where
  get _ _ := ((), .notFoundE)
  create _ _ _ := ((), .badRequestE "read_write endpoint already exists with a different name")
  list _ _ := ((), ["projects/todo-app/branches/production/endpoints/auto"])

/-- A plane whose branch is unprotected and whose update is rejected with a
`BadRequest` (e.g. the plan does not allow protection). -/
def protectRejectedOps : ProtectOps Unit where
  get _ name := ((), .foundB ⟨name, some ⟨some false⟩⟩)
  update _ _ _ _ := ((), .failedB (.badRequestErr "protection not allowed on this plan"))

/-- A bootstrap environment failing with a connection error on every
attempt. -/
def envAllOperational : Nat → AttemptOutcome :=
  fun i => .operationalErr (if i = 0 then "e0" else if i = 1 then "e1" else "e2")

end TodoApp

namespace TodoApp

/-! ## Theorems -/

/-- C10: calling `update_todo` with title, description, completed and
priority all absent issues no UPDATE statement, leaves the table unchanged
(every stored field of every row, `updated_at` included), and returns
exactly `get_todo(todo_id)`. -/
theorem claim_C10_update_todo_noop (db : List TodoRow) (now : Int) (todo_id : String) :
    updateTodo db now todo_id none none none none = (getTodo db todo_id, db, false) :=
  rfl

/-- C9 counterexample: the CI provisioning entry point `provision_ci`
defaults its endpoint id to `"primary"`, not `"default"` as the claim
states for all provisioning entry points. -/
theorem claim_C9_counterexample :
    provisionCiDefaultEndpointId = "primary" ∧ provisionCiDefaultEndpointId ≠ "default" := by
  decide

/-- C9 (amended): the interactive entry points (`dev_setup.py` and
`provision_all`) default to project id `"todo-app"` and endpoint id
`"default"`; `provision_ci` defaults to project id `"todo-app"`, endpoint
id `"primary"` and database name `"todoapp"`; the branch id defaults to
`dev-{normalized-username}` (username lowercased, dots replaced by
hyphens) for interactive use and to `"production"` for CI. -/
theorem claim_C9_defaults :
    devSetupDefaultProject = "todo-app" ∧
    devSetupDefaultEndpoint = "default" ∧
    provisionAllDefaultProjectId = "todo-app" ∧
    provisionAllDefaultEndpointId = "default" ∧
    provisionAllDefaultBranchId = "production" ∧
    provisionCiDefaultProjectId = "todo-app" ∧
    provisionCiDefaultEndpointId = "primary" ∧
    provisionCiDefaultBranchId = "production" ∧
    provisionCiDefaultDatabase = "todoapp" ∧
    deriveBranchId "Jane.Doe@Example.com" = "dev-jane-doe" := by
  decide

/-- C2 counterexample: the claim fails for the role kind.  When
`create_role` reports `AlreadyExists` (racing plane where a re-fetch would
find the role), `ensure_role` returns the absent value `none` — not the
result of a subsequent fetch — and issues no fetch after the create (the
trace holds exactly one get call, the initial one). -/
theorem claim_C2_counterexample :
    ensure_role roleRaceOps 0 "p" "b" "alice@example.com" =
      (2, .ok none, [.getCall, .createCall]) ∧
    getCalls [Call.getCall, Call.createCall] = 1 ∧
    (roleRaceOps.get 2 "projects/p/branches/b/roles/alice-example-com").2 =
      .found "projects/p/branches/b/roles/alice-example-com" := by
  decide

/-- C5 counterexample: a call with an empty endpoint name is not a cache
hit, yet no mint occurs — contradicting "otherwise exactly one new mint
occurs". -/
theorem claim_C5_counterexample :
    cacheHitB emptyTokenCache 0 "" = false ∧
    getToken (.ok (some "tok")) 0 emptyTokenCache "" = (none, emptyTokenCache, 0) := by
  decide

/-- C7 counterexample: the identity `"a_b"` yields role id `"a_b"`, which
violates the pattern `^[a-z]([a-z0-9-]{0,61}[a-z0-9])?$` (underscores are
neither replaced nor excluded by the normalization). -/
theorem claim_C7_counterexample :
    roleIdStr "a_b" = "a_b" ∧ rolePatternOk (roleIdStr "a_b").data = false := by
  decide

/-- C2 (amended): if the create call raises `AlreadyExists`, every
ensure-operation completes successfully without propagating the error.
`ensure_project`, `ensure_branch` and `ensure_endpoint` return the result
of a subsequent fetch of the same deterministic name; `ensure_role`
instead returns the absent value immediately, with no further fetch. -/
theorem claim_C2_conflict_recovery :
    (∀ (σ : Type) (ops : ProjectOps σ) (s : σ) (pid : String) (s₁ s₂ s₃ : σ) (r : String),
      ops.get s ("projects/" ++ pid) = (s₁, .notFoundE) →
      ops.create s₁ pid = (s₂, .alreadyExistsE) →
      ops.get s₂ ("projects/" ++ pid) = (s₃, .found r) →
      ensure_project ops s pid = (s₃, .ok r, [.getCall, .createCall, .getCall])) ∧
    (∀ (σ : Type) (ops : BranchOps σ) (s : σ) (pid bid : String) (s₁ s₂ s₃ : σ) (r : String),
      ops.get s ("projects/" ++ pid ++ "/branches/" ++ bid) = (s₁, .notFoundE) →
      ops.create s₁ ("projects/" ++ pid) bid = (s₂, .alreadyExistsE) →
      ops.get s₂ ("projects/" ++ pid ++ "/branches/" ++ bid) = (s₃, .found r) →
      ensure_branch ops s pid bid = (s₃, .ok r, [.getCall, .createCall, .getCall])) ∧
    (∀ (σ : Type) (ops : EndpointOps σ) (s : σ) (pid bid eid : String) (s₁ s₂ s₃ : σ) (r : String),
      ops.get s ("projects/" ++ pid ++ "/branches/" ++ bid ++ "/endpoints/" ++ eid) =
        (s₁, .notFoundE) →
      ops.create s₁ ("projects/" ++ pid ++ "/branches/" ++ bid) eid = (s₂, .alreadyExistsE) →
      ops.get s₂ ("projects/" ++ pid ++ "/branches/" ++ bid ++ "/endpoints/" ++ eid) =
        (s₃, .found r) →
      ensure_endpoint ops s pid bid eid = (s₃, .ok r, [.getCall, .createCall, .getCall])) ∧
    (∀ (σ : Type) (ops : RoleOps σ) (s : σ) (pid bid ident : String) (s₁ s₂ : σ),
      ops.get s ("projects/" ++ pid ++ "/branches/" ++ bid ++ "/roles/" ++ roleIdStr ident) =
        (s₁, .notFoundE) →
      ops.create s₁ ("projects/" ++ pid ++ "/branches/" ++ bid) (roleIdStr ident) =
        (s₂, .alreadyExistsE) →
      ensure_role ops s pid bid ident = (s₂, .ok none, [.getCall, .createCall])) := by
  refine ⟨?_, ?_, ?_, ?_⟩
  · intro σ ops s pid s₁ s₂ s₃ r h1 h2 h3
    simp [ensure_project, h1, h2, h3]
  · intro σ ops s pid bid s₁ s₂ s₃ r h1 h2 h3
    simp [ensure_branch, h1, h2, h3]
  · intro σ ops s pid bid eid s₁ s₂ s₃ r h1 h2 h3
    simp [ensure_endpoint, h1, h2, h3]
  · intro σ ops s pid bid ident s₁ s₂ h1 h2
    simp [ensure_role, h1, h2]

/-- C2 witness: on the racing project plane, `ensure_project` converges to
the re-fetched resource. -/
theorem claim_C2_conflict_recovery_witness :
    ensure_project projectRaceOps 0 "todo-app" =
      (3, .ok "projects/todo-app", [.getCall, .createCall, .getCall]) :=
  claim_C2_conflict_recovery.1 Nat projectRaceOps 0 "todo-app" 1 2 3 "projects/todo-app"
    rfl rfl rfl

/-- C3: when `ensure_endpoint`'s create fails with a `BadRequest` whose
message contains the `"already exists"` conflict signal, the operation
returns the first endpoint listed under the parent (when the list is
non-empty) and re-raises the original error when the list is empty; a
`BadRequest` whose message lacks the signal propagates unchanged, with no
list call. -/
theorem claim_C3_endpoint_fallback
    (σ : Type) (ops : EndpointOps σ) (s : σ) (pid bid eid : String) (s₁ s₂ : σ) (m : String)
    (hget : ops.get s ("projects/" ++ pid ++ "/branches/" ++ bid ++ "/endpoints/" ++ eid) =
      (s₁, .notFoundE))
    (hcreate : ops.create s₁ ("projects/" ++ pid ++ "/branches/" ++ bid) eid =
      (s₂, .badRequestE m)) :
    (strContainsSub m "already exists" = true →
      (∀ (s₃ : σ) (e : String) (rest : List String),
        ops.list s₂ ("projects/" ++ pid ++ "/branches/" ++ bid) = (s₃, e :: rest) →
        ensure_endpoint ops s pid bid eid = (s₃, .ok e, [.getCall, .createCall, .listCall])) ∧
      (∀ s₃ : σ,
        ops.list s₂ ("projects/" ++ pid ++ "/branches/" ++ bid) = (s₃, []) →
        ensure_endpoint ops s pid bid eid =
          (s₃, .error (.badRequestErr m), [.getCall, .createCall, .listCall]))) ∧
    (strContainsSub m "already exists" = false →
      ensure_endpoint ops s pid bid eid =
        (s₂, .error (.badRequestErr m), [.getCall, .createCall]) ∧
      listCalls [Call.getCall, Call.createCall] = 0) := by
  refine ⟨fun hsig => ⟨?_, ?_⟩, fun hsig => ⟨?_, by decide⟩⟩
  · intro s₃ e rest hlist
    simp [ensure_endpoint, hget, hcreate, hsig, hlist]
  · intro s₃ hlist
    simp [ensure_endpoint, hget, hcreate, hsig, hlist]
  · simp [ensure_endpoint, hget, hcreate, hsig]

/-- C3 witness: on the conflicting plane, `ensure_endpoint` recovers the
auto-provisioned endpoint. -/
theorem claim_C3_endpoint_fallback_witness :
    ensure_endpoint endpointConflictOps () "todo-app" "production" "default" =
      ((), .ok "projects/todo-app/branches/production/endpoints/auto",
        [.getCall, .createCall, .listCall]) :=
  ((claim_C3_endpoint_fallback Unit endpointConflictOps () "todo-app" "production" "default"
      () () "read_write endpoint already exists with a different name" rfl rfl).1
    (by decide)).1 () "projects/todo-app/branches/production/endpoints/auto" [] rfl

/-- C8: `protect_branch` is idempotent and non-fatal.  If the fetched
branch's protection flag is already true it is returned without any update
call; otherwise exactly one partial update is issued whose field mask
carries the path `"spec.is_protected"`, serialized by
`_SnakeCaseFieldMask.ToJsonString` to the literal snake_case string
`"spec.is_protected"` (no camelCase re-encoding); and if that update is
rejected with a `BadRequest`, the method returns the absent value instead
of raising. -/
theorem claim_C8_protect_branch
    (σ : Type) (ops : ProtectOps σ) (s : σ) (pid bid : String) (s₁ : σ) (b : BranchObj)
    (hget : ops.get s ("projects/" ++ pid ++ "/branches/" ++ bid) = (s₁, .foundB b)) :
    (branchProtectedB b = true →
      protect_branch ops s pid bid = (s₁, .ok (some b), [.getCall])) ∧
    (branchProtectedB b = false →
      (protect_branch ops s pid bid).2.2 =
        [.getCall, .updateCall ["spec.is_protected"]]) ∧
    (∀ (s₂ : σ) (m : String), branchProtectedB b = false →
      ops.update s₁ ("projects/" ++ pid ++ "/branches/" ++ bid)
          ⟨"projects/" ++ pid ++ "/branches/" ++ bid, some ⟨some true⟩⟩
          ["spec.is_protected"] = (s₂, .failedB (.badRequestErr m)) →
      protect_branch ops s pid bid =
        (s₂, .ok none, [.getCall, .updateCall ["spec.is_protected"]])) ∧
    maskToJsonString ["spec.is_protected"] = "spec.is_protected" := by
  refine ⟨?_, ?_, ?_, by decide⟩
  · intro hprot
    simp [protect_branch, hget, hprot]
  · intro hprot
    rcases hu : ops.update s₁ ("projects/" ++ pid ++ "/branches/" ++ bid)
        ⟨"projects/" ++ pid ++ "/branches/" ++ bid, some ⟨some true⟩⟩
        ["spec.is_protected"] with ⟨s₂, u⟩
    match u with
    | .updatedB b' => simp [protect_branch, hget, hprot, hu]
    | .failedB e =>
      match e with
      | .notFoundErr => simp [protect_branch, hget, hprot, hu]
      | .alreadyExistsErr => simp [protect_branch, hget, hprot, hu]
      | .badRequestErr m => simp [protect_branch, hget, hprot, hu]
  · intro s₂ m hprot hu
    simp [protect_branch, hget, hprot, hu]

/-- C8 witness: on the plane whose branch is unprotected and whose update
is rejected, `protect_branch` returns the absent value after a single
correctly-masked update. -/
theorem claim_C8_protect_branch_witness :
    protect_branch protectRejectedOps () "todo-app" "production" =
      ((), .ok none, [.getCall, .updateCall ["spec.is_protected"]]) :=
  (claim_C8_protect_branch Unit protectRejectedOps () "todo-app" "production" ()
      ⟨"projects/todo-app/branches/production", some ⟨some false⟩⟩ rfl).2.2.1
    () "protection not allowed on this plan" (by decide) rfl

/-- C4: `ensure_database` makes at most 3 connection attempts; one
credential is minted per attempt (the initial mint plus a fresh one before
attempts 2 and 3), each retry preceded by a fixed 5-second wait; a
duplicate-database error on `CREATE DATABASE` is treated as success;
connection errors on all 3 attempts raise the last connection error; and a
failure that is not a connection error is not retried. -/
theorem claim_C4_ensure_database (env : Nat → AttemptOutcome) :
    (ensureDatabase env).attempts ≤ 3 ∧
    (ensureDatabase env).mints = (ensureDatabase env).attempts ∧
    (ensureDatabase env).sleeps = List.replicate ((ensureDatabase env).attempts - 1) 5 ∧
    (env 0 = .duplicateDb →
      ensureDatabase env = ⟨.success, 1, 1, []⟩) ∧
    (∀ m, env 0 = .operationalErr m → env 1 = .duplicateDb →
      ensureDatabase env = ⟨.success, 2, 2, [5]⟩) ∧
    (∀ m0 m1 m2, env 0 = .operationalErr m0 → env 1 = .operationalErr m1 →
      env 2 = .operationalErr m2 →
      ensureDatabase env = ⟨.raisedOperational m2, 3, 3, [5, 5]⟩) ∧
    (∀ m, env 0 = .fatalErr m →
      ensureDatabase env = ⟨.raisedOther m, 1, 1, []⟩) ∧
    (∀ m0 m, env 0 = .operationalErr m0 → env 1 = .fatalErr m →
      ensureDatabase env = ⟨.raisedOther m, 2, 2, [5]⟩) := by
  refine ⟨?_, ?_, ?_, ?_, ?_, ?_, ?_, ?_⟩
  · rcases h0 : env 0 <;> rcases h1 : env 1 <;> rcases h2 : env 2 <;>
      simp [ensureDatabase, dbGo, h0, h1, h2]
  · rcases h0 : env 0 <;> rcases h1 : env 1 <;> rcases h2 : env 2 <;>
      simp [ensureDatabase, dbGo, h0, h1, h2]
  · rcases h0 : env 0 <;> rcases h1 : env 1 <;> rcases h2 : env 2 <;>
      simp [ensureDatabase, dbGo, h0, h1, h2, List.replicate]
  · intro h0
    simp [ensureDatabase, dbGo, h0]
  · intro m h0 h1
    simp [ensureDatabase, dbGo, h0, h1]
  · intro m0 m1 m2 h0 h1 h2
    simp [ensureDatabase, dbGo, h0, h1, h2]
  · intro m h0
    simp [ensureDatabase, dbGo, h0]
  · intro m0 m h0 h1
    simp [ensureDatabase, dbGo, h0, h1]

/-- C4 witness: with connection errors on all three attempts, the last
connection error is raised after 3 attempts, 3 mints and 2 waits. -/
theorem claim_C4_ensure_database_witness :
    ensureDatabase envAllOperational = ⟨.raisedOperational "e2", 3, 3, [5, 5]⟩ :=
  (claim_C4_ensure_database envAllOperational).2.2.2.2.2.1 "e0" "e1" "e2" rfl rfl rfl

/-- C5 (amended): `get_token` returns the cached token without a new mint
exactly when the cached endpoint name equals the requested non-empty one, a
cached token is present (truthy) and the current time is more than 5
minutes before the cached expiry, which is recorded as 55 minutes after
mint; otherwise, for a non-empty endpoint name, exactly one new mint
occurs (so two calls for the same endpoint within the validity window
yield the identical token with a single mint, and a call after expiry or
for a different endpoint mints anew); a call with an empty endpoint name
returns the absent value with no mint; and a mint failure yields the
absent value rather than an exception. -/
theorem claim_C5_token_cache :
    (∀ (mint : Except Unit (Option String)) (now : Int) (c : TokenCache) (ep : String),
      ep ≠ "" → cacheHitB c now ep = true →
      getToken mint now c ep = (c.token, c, 0)) ∧
    (∀ (mint : Except Unit (Option String)) (now : Int) (c : TokenCache) (ep : String),
      ep ≠ "" → cacheHitB c now ep = false →
      (getToken mint now c ep).2.2 = 1) ∧
    (∀ (mint : Except Unit (Option String)) (now : Int) (c : TokenCache) (ep : String),
      (getToken mint now c ep).2.2 = 0 → ep = "" ∨ cacheHitB c now ep = true) ∧
    (∀ (mint : Except Unit (Option String)) (now : Int) (c : TokenCache),
      getToken mint now c "" = (none, c, 0)) ∧
    (∀ (now : Int) (c : TokenCache) (ep : String),
      ep ≠ "" → cacheHitB c now ep = false →
      getToken (.error ()) now c ep = (none, c, 1)) ∧
    (∀ (t : String) (now : Int) (c : TokenCache) (ep : String),
      ep ≠ "" → cacheHitB c now ep = false →
      getToken (.ok (some t)) now c ep =
        (some t, ⟨some t, some (now + 55), some ep⟩, 1)) ∧
    (∀ (t : String) (now now₂ : Int) (ep : String) (mint₂ : Except Unit (Option String)),
      ep ≠ "" → t ≠ "" → now₂ < now + 50 →
      getToken mint₂ now₂ ⟨some t, some (now + 55), some ep⟩ ep =
        (some t, ⟨some t, some (now + 55), some ep⟩, 0)) ∧
    (∀ (t : String) (now now₂ : Int) (ep : String) (mint₂ : Except Unit (Option String)),
      ep ≠ "" → now + 50 ≤ now₂ →
      (getToken mint₂ now₂ ⟨some t, some (now + 55), some ep⟩ ep).2.2 = 1) ∧
    (∀ (t : String) (now now₂ : Int) (ep ep₂ : String)
        (mint₂ : Except Unit (Option String)),
      ep₂ ≠ "" → ep₂ ≠ ep →
      (getToken mint₂ now₂ ⟨some t, some (now + 55), some ep⟩ ep₂).2.2 = 1) := by
  refine ⟨?_, ?_, ?_, ?_, ?_, ?_, ?_, ?_, ?_⟩
  · intro mint now c ep hep hhit
    simp [getToken, hep, hhit]
  · intro mint now c ep hep hmiss
    rcases mint with u | t <;> simp [getToken, hep, hmiss]
  · intro mint now c ep h
    by_cases hep : ep = ""
    · exact Or.inl hep
    by_cases hhit : cacheHitB c now ep = true
    · exact Or.inr hhit
    · exfalso
      rcases mint with u | t <;> simp [getToken, hep, hhit] at h
  · intro mint now c
    simp [getToken]
  · intro now c ep hep hmiss
    simp [getToken, hep, hmiss]
  · intro t now c ep hep hmiss
    simp [getToken, hep, hmiss]
  · intro t now now₂ ep mint₂ hep ht hwin
    have hhit : cacheHitB ⟨some t, some (now + 55), some ep⟩ now₂ ep = true := by
      simp [cacheHitB, pyTruthyStr, ht]
      omega
    simp [getToken, hep, hhit]
  · intro t now now₂ ep mint₂ hep hlate
    have hmiss : cacheHitB ⟨some t, some (now + 55), some ep⟩ now₂ ep = false := by
      simp [cacheHitB, pyTruthyStr]
      intro _
      omega
    rcases mint₂ with u | t₂ <;> simp [getToken, hep, hmiss]
  · intro t now now₂ ep ep₂ mint₂ hep₂ hne
    have hmiss : cacheHitB ⟨some t, some (now + 55), some ep⟩ now₂ ep₂ = false := by
      simp [cacheHitB, pyTruthyStr]
      intro _ h
      exact absurd h.symm hne
    rcases mint₂ with u | t₂ <;> simp [getToken, hep₂, hmiss]

/-- Applying `Char.ofNat` to a scalar below the surrogate range keeps its code. -/
theorem toNat_ofNat_of_lt {n : Nat} (h : n < 55296) : (Char.ofNat n).toNat = n := by
  have hv : n.isValidChar := Or.inl h
  unfold Char.ofNat
  rw [dif_pos hv]
  rfl

/-- Code arithmetic of `pyLowerChar`. -/
theorem toNat_pyLowerChar (c : Char) :
    (pyLowerChar c).toNat =
      if 65 ≤ c.toNat ∧ c.toNat ≤ 90 then c.toNat + 32 else c.toNat := by
  by_cases h : 65 ≤ c.toNat ∧ c.toNat ≤ 90
  · rw [pyLowerChar, if_pos h, if_pos h, toNat_ofNat_of_lt (by omega)]
  · rw [pyLowerChar, if_neg h, if_neg h]

/-- The map `pyLowerChar` never produces an upper-case ASCII letter. -/
theorem pyLowerChar_not_upper (c : Char) :
    ¬(65 ≤ (pyLowerChar c).toNat ∧ (pyLowerChar c).toNat ≤ 90) := by
  have h := toNat_pyLowerChar c
  by_cases hc : 65 ≤ c.toNat ∧ c.toNat ≤ 90
  · rw [if_pos hc] at h; omega
  · rw [if_neg hc] at h; omega

/-- The two sequential single-character replaces followed by the lowercase
map fuse into the single character map `normChar`. -/
theorem roleId_norm_map (l : List Char) :
    (pyReplaceChar (pyReplaceChar l '@' '-') '.' '-').map pyLowerChar = l.map normChar := by
  induction l with
  | nil => rfl
  | cons c cs ih =>
    simp only [pyReplaceChar, List.map_cons] at ih ⊢
    refine congrArg₂ List.cons ?_ ih
    by_cases h1 : c = '@'
    · subst h1; rfl
    by_cases h2 : c = '.'
    · subst h2; rfl
    simp [h1, h2, normChar]

/-- The code's role-id normalization coincides with the spec's description
of it. -/
theorem roleIdChars_eq_spec (l : List Char) : roleIdChars l = specRoleIdChars l := by
  unfold roleIdChars specRoleIdChars
  rw [roleId_norm_map]

/-- Evaluating `normChar` on a character that is neither `@` nor `.` is just the
lowercase map. -/
theorem normChar_eq_of_ne (c : Char) (h1 : c ≠ '@') (h2 : c ≠ '.') :
    normChar c = pyLowerChar c := by
  unfold normChar
  rw [if_neg (fun h => h.elim h1 h2)]

/-- The map `normChar` maps every allowed identity character into the middle class
`[a-z0-9-]` of the role-id pattern. -/
theorem isRoleMidB_normChar (c : Char) (h : allowedIdentChar c = true) :
    isRoleMidB (normChar c) = true := by
  by_cases h1 : c = '@'
  · subst h1; decide
  by_cases h2 : c = '.'
  · subst h2; decide
  by_cases h3 : c = '-'
  · subst h3; decide
  rw [normChar_eq_of_ne c h1 h2]
  have had : pyIsAlphaB c = true ∨ pyIsDigitB c = true := by
    simp only [allowedIdentChar, Bool.or_eq_true, beq_iff_eq] at h
    rcases h with ((((h | h) | h) | h) | h)
    exacts [Or.inl h, Or.inr h, absurd h h1, absurd h h2, absurd h h3]
  have ht := toNat_pyLowerChar c
  rcases had with ha | hd
  · have hb : (65 ≤ c.toNat ∧ c.toNat ≤ 90) ∨ (97 ≤ c.toNat ∧ c.toNat ≤ 122) := by
      simpa [pyIsAlphaB] using ha
    have hlow : isLowerAlphaB (pyLowerChar c) = true := by
      simp only [isLowerAlphaB, Bool.and_eq_true, decide_eq_true_eq]
      rcases hb with hb | hb
      · rw [if_pos hb] at ht; omega
      · rw [if_neg (by omega)] at ht; omega
    simp [isRoleMidB, isLowerAlnumB, hlow]
  · have hb : 48 ≤ c.toNat ∧ c.toNat ≤ 57 := by simpa [pyIsDigitB] using hd
    rw [if_neg (by omega)] at ht
    have hdig : pyIsDigitB (pyLowerChar c) = true := by
      simp only [pyIsDigitB, Bool.and_eq_true, decide_eq_true_eq, ht]
      omega
    simp [isRoleMidB, isLowerAlnumB, hdig]

/-- The map `normChar` maps every ASCII letter or digit into the final class
`[a-z0-9]` of the role-id pattern. -/
theorem isLowerAlnumB_normChar (c : Char) (h : letterOrDigitB c = true) :
    isLowerAlnumB (normChar c) = true := by
  have hb : (65 ≤ c.toNat ∧ c.toNat ≤ 90) ∨ (97 ≤ c.toNat ∧ c.toNat ≤ 122) ∨
      (48 ≤ c.toNat ∧ c.toNat ≤ 57) := by
    simpa [letterOrDigitB, pyIsAlphaB, pyIsDigitB, or_assoc] using h
  have h1 : c ≠ '@' := by rintro rfl; revert hb; decide
  have h2 : c ≠ '.' := by rintro rfl; revert hb; decide
  rw [normChar_eq_of_ne c h1 h2]
  have ht := toNat_pyLowerChar c
  rcases hb with hb | hb | hb
  · rw [if_pos hb] at ht
    have : isLowerAlphaB (pyLowerChar c) = true := by
      simp only [isLowerAlphaB, Bool.and_eq_true, decide_eq_true_eq, ht]; omega
    simp [isLowerAlnumB, this]
  · rw [if_neg (by omega)] at ht
    have : isLowerAlphaB (pyLowerChar c) = true := by
      simp only [isLowerAlphaB, Bool.and_eq_true, decide_eq_true_eq, ht]; omega
    simp [isLowerAlnumB, this]
  · rw [if_neg (by omega)] at ht
    have : pyIsDigitB (pyLowerChar c) = true := by
      simp only [pyIsDigitB, Bool.and_eq_true, decide_eq_true_eq, ht]; omega
    simp [isLowerAlnumB, this]

/-- If `normChar c` is alphabetic at all, it is a lower-case letter. -/
theorem isLowerAlphaB_normChar_of_alpha (c : Char)
    (h : pyIsAlphaB (normChar c) = true) : isLowerAlphaB (normChar c) = true := by
  have hnu : ¬(65 ≤ (normChar c).toNat ∧ (normChar c).toNat ≤ 90) := by
    unfold normChar
    exact pyLowerChar_not_upper _
  simp only [pyIsAlphaB, Bool.or_eq_true, Bool.and_eq_true, decide_eq_true_eq] at h
  simp only [isLowerAlphaB, Bool.and_eq_true, decide_eq_true_eq]
  rcases h with h | h
  · exact absurd h hnu
  · exact h

/-- The last element of a mapped non-empty list is the image of the last
element, for any defaults. -/
theorem getLastD_map_of_ne (f : Char → Char) (l : List Char) (h : l ≠ []) (d₁ d₂ : Char) :
    (l.map f).getLastD d₁ = f (l.getLastD d₂) := by
  rcases hq : l.getLast? with _ | a
  · exact absurd (by simpa using hq) h
  · rw [List.getLastD_eq_getLast?, List.getLastD_eq_getLast?, List.getLast?_map, hq]
    rfl

/-- The fallback of `getLastD` is irrelevant on a non-empty list. -/
theorem getLastD_cons_irrel (a : Char) (l : List Char) (d₁ d₂ : Char) :
    (a :: l).getLastD d₁ = (a :: l).getLastD d₂ := by
  rw [List.getLastD_cons, List.getLastD_cons]

/-- C6: the role id derived by `ensure_role` equals the identity with every
`@` and every `.` replaced by `-` and lowercased, prefixed with a literal
alphabetic marker when the result begins with a non-alphabetic character;
in particular `"Jane.Doe@Example.com"` yields `"jane-doe-example-com"`, and
any non-empty identity beginning with a digit yields an id that starts
with a letter. -/
theorem claim_C6_role_id_normalization :
    (∀ s : String, roleIdStr s = String.mk (specRoleIdChars s.data)) ∧
    roleIdStr "Jane.Doe@Example.com" = "jane-doe-example-com" ∧
    (∀ s : String, s.data ≠ [] → pyIsDigitB (s.data.headD ' ') = true →
      pyIsAlphaB ((roleIdStr s).data.headD ' ') = true) := by
  refine ⟨?_, by decide, ?_⟩
  · intro s
    unfold roleIdStr
    rw [roleIdChars_eq_spec]
  · intro s hne hdig
    have hdata : (roleIdStr s).data = roleIdChars s.data := rfl
    rw [hdata, roleIdChars_eq_spec]
    rcases hl : s.data with _ | ⟨c, cs⟩
    · exact absurd hl hne
    rw [hl] at hdig
    have hc : pyIsDigitB c = true := hdig
    have hb : 48 ≤ c.toNat ∧ c.toNat ≤ 57 := by simpa [pyIsDigitB] using hc
    have h1 : c ≠ '@' := by rintro rfl; revert hb; decide
    have h2 : c ≠ '.' := by rintro rfl; revert hb; decide
    have hnc : normChar c = c := by
      rw [normChar_eq_of_ne c h1 h2, pyLowerChar, if_neg (by omega)]
    have hna : pyIsAlphaB (normChar c) = false := by
      rw [hnc]
      simp only [pyIsAlphaB, Bool.or_eq_false_iff, Bool.and_eq_false_iff,
        decide_eq_false_iff_not]
      omega
    simp [specRoleIdChars, hna]
    decide

/-- C6 witness: the identity `"1abc"` begins with a digit and its derived
role id starts with a letter. -/
theorem claim_C6_role_id_normalization_witness :
    "1abc".data ≠ [] ∧ pyIsDigitB ("1abc".data.headD ' ') = true ∧
    pyIsAlphaB ((roleIdStr "1abc").data.headD ' ') = true :=
  ⟨by decide, by decide, claim_C6_role_id_normalization.2.2 "1abc" (by decide) (by decide)⟩

/-- C7 (amended): for every non-empty identity of length at most 60 whose
characters are ASCII letters, digits, `@`, `.` or `-`, and which ends in a
letter or digit, the role id derived by `ensure_role` satisfies the
pattern `^[a-z]([a-z0-9-]{0,61}[a-z0-9])?$`. -/
theorem claim_C7_role_id_pattern (s : String)
    (hne : s.data ≠ []) (hlen : s.data.length ≤ 60)
    (hchars : ∀ c ∈ s.data, allowedIdentChar c = true)
    (hlast : letterOrDigitB (s.data.getLastD ' ') = true) :
    rolePatternOk (roleIdStr s).data = true := by
  have hdata : (roleIdStr s).data = roleIdChars s.data := rfl
  rw [hdata, roleIdChars_eq_spec]
  rcases hl : s.data with _ | ⟨c, cs⟩
  · exact absurd hl hne
  rw [hl] at hlen hchars hlast
  have hmid : ∀ x ∈ cs.map normChar, isRoleMidB x = true := by
    intro x hx
    rcases List.mem_map.mp hx with ⟨y, hy, rfl⟩
    exact isRoleMidB_normChar y (hchars y (List.mem_cons_of_mem _ hy))
  have hlast2 : isLowerAlnumB (((c :: cs).map normChar).getLastD ' ') = true := by
    rw [getLastD_map_of_ne normChar (c :: cs) (by simp) ' ' ' ']
    exact isLowerAlnumB_normChar _ hlast
  by_cases hhead : pyIsAlphaB (normChar c) = true
  · have hr : specRoleIdChars (c :: cs) = normChar c :: cs.map normChar := by
      simp [specRoleIdChars, hhead]
    rw [hr]
    have h1 : isLowerAlphaB (normChar c) = true := isLowerAlphaB_normChar_of_alpha c hhead
    cases cs with
    | nil => simp [rolePatternOk, h1]
    | cons b bs =>
      simp [rolePatternOk, h1]
      refine ⟨⟨?_, ?_⟩, ?_⟩
      · simp only [List.length_cons] at hlen
        omega
      · intro x hx
        exact hmid x (List.dropLast_subset _ hx)
      · rw [← List.getLastD_eq_getLast?]
        have he : ((c :: b :: bs).map normChar).getLastD ' ' =
            (normChar b :: List.map normChar bs).getLastD ' ' := by
          simp only [List.map_cons]
          rw [List.getLastD_cons]
          exact getLastD_cons_irrel _ _ _ _
        rw [← he]
        exact hlast2
  · have hr : specRoleIdChars (c :: cs) =
        's' :: 'p' :: '-' :: normChar c :: cs.map normChar := by
      simp [specRoleIdChars, hhead]
    rw [hr]
    have hmidc : isRoleMidB (normChar c) = true :=
      isRoleMidB_normChar c (hchars c (List.mem_cons_self _ _))
    simp [rolePatternOk]
    refine ⟨by decide, ⟨?_, by decide, by decide, ?_⟩, ?_⟩
    · simp only [List.length_cons] at hlen
      omega
    · intro x hx
      have hx' := List.dropLast_subset _ hx
      rcases List.mem_cons.mp hx' with rfl | hx''
      · exact hmidc
      · exact hmid x hx''
    · rw [← List.getLastD_eq_getLast?]
      have he : ((c :: cs).map normChar).getLastD ' ' =
          (normChar c :: List.map normChar cs).getLastD ' ' := by
        simp only [List.map_cons]
      rw [← he]
      exact hlast2

/-- C7 witness: the email identity `"Jane.Doe@Example.com"` satisfies the
amended hypotheses and its role id matches the pattern. -/
theorem claim_C7_role_id_pattern_witness :
    rolePatternOk (roleIdStr "Jane.Doe@Example.com").data = true :=
  claim_C7_role_id_pattern "Jane.Doe@Example.com" (by decide) (by decide)
    (by decide) (by decide)

/-- Evaluation of `ensure_project` on the honest sequential plane. -/
theorem ensure_project_honest (s : List String) (pid : String) :
    ensure_project honestProjectOps s pid =
      if ("projects/" ++ pid) ∈ s
      then (s, .ok ("projects/" ++ pid), [.getCall])
      else (("projects/" ++ pid) :: s, .ok ("projects/" ++ pid), [.getCall, .createCall]) := by
  by_cases h : ("projects/" ++ pid) ∈ s <;> simp [ensure_project, honestProjectOps, h]

/-- Evaluation of `ensure_branch` on the honest sequential plane. -/
theorem ensure_branch_honest (s : List String) (pid bid : String) :
    ensure_branch honestBranchOps s pid bid =
      if ("projects/" ++ pid ++ "/branches/" ++ bid) ∈ s
      then (s, .ok ("projects/" ++ pid ++ "/branches/" ++ bid), [.getCall])
      else (("projects/" ++ pid ++ "/branches/" ++ bid) :: s,
        .ok ("projects/" ++ pid ++ "/branches/" ++ bid), [.getCall, .createCall]) := by
  by_cases h : ("projects/" ++ pid ++ "/branches/" ++ bid) ∈ s <;>
    simp [ensure_branch, honestBranchOps, h]

/-- Evaluation of `ensure_endpoint` on the honest sequential plane. -/
theorem ensure_endpoint_honest (s : List String) (pid bid eid : String) :
    ensure_endpoint honestEndpointOps s pid bid eid =
      if ("projects/" ++ pid ++ "/branches/" ++ bid ++ "/endpoints/" ++ eid) ∈ s
      then (s, .ok ("projects/" ++ pid ++ "/branches/" ++ bid ++ "/endpoints/" ++ eid),
        [.getCall])
      else (("projects/" ++ pid ++ "/branches/" ++ bid ++ "/endpoints/" ++ eid) :: s,
        .ok ("projects/" ++ pid ++ "/branches/" ++ bid ++ "/endpoints/" ++ eid),
        [.getCall, .createCall]) := by
  by_cases h : ("projects/" ++ pid ++ "/branches/" ++ bid ++ "/endpoints/" ++ eid) ∈ s <;>
    simp [ensure_endpoint, honestEndpointOps, h]

/-- Evaluation of `ensure_role` on the honest sequential plane. -/
theorem ensure_role_honest (s : List String) (pid bid ident : String) :
    ensure_role honestRoleOps s pid bid ident =
      if ("projects/" ++ pid ++ "/branches/" ++ bid ++ "/roles/" ++ roleIdStr ident) ∈ s
      then (s,
        .ok (some ("projects/" ++ pid ++ "/branches/" ++ bid ++ "/roles/" ++ roleIdStr ident)),
        [.getCall])
      else (("projects/" ++ pid ++ "/branches/" ++ bid ++ "/roles/" ++ roleIdStr ident) :: s,
        .ok (some ("projects/" ++ pid ++ "/branches/" ++ bid ++ "/roles/" ++ roleIdStr ident)),
        [.getCall, .createCall]) := by
  by_cases h : ("projects/" ++ pid ++ "/branches/" ++ bid ++ "/roles/" ++ roleIdStr ident) ∈ s <;>
    simp [ensure_role, honestRoleOps, h]

/-- C1: against the honest sequential control plane, calling each of the
four ensure-operations twice in sequence with identical arguments yields
the same resource name both times, and the second call issues no create
call (it is satisfied by the initial fetch of the deterministic name). -/
theorem claim_C1_ensure_idempotent :
    (∀ (s : List String) (pid : String), ∃ nm,
      (ensure_project honestProjectOps s pid).2.1 = .ok nm ∧
      (ensure_project honestProjectOps (ensure_project honestProjectOps s pid).1 pid).2.1 =
        .ok nm ∧
      createCalls
        (ensure_project honestProjectOps (ensure_project honestProjectOps s pid).1 pid).2.2 =
        0) ∧
    (∀ (s : List String) (pid bid : String), ∃ nm,
      (ensure_branch honestBranchOps s pid bid).2.1 = .ok nm ∧
      (ensure_branch honestBranchOps (ensure_branch honestBranchOps s pid bid).1 pid bid).2.1 =
        .ok nm ∧
      createCalls
        (ensure_branch honestBranchOps
          (ensure_branch honestBranchOps s pid bid).1 pid bid).2.2 = 0) ∧
    (∀ (s : List String) (pid bid eid : String), ∃ nm,
      (ensure_endpoint honestEndpointOps s pid bid eid).2.1 = .ok nm ∧
      (ensure_endpoint honestEndpointOps
        (ensure_endpoint honestEndpointOps s pid bid eid).1 pid bid eid).2.1 = .ok nm ∧
      createCalls
        (ensure_endpoint honestEndpointOps
          (ensure_endpoint honestEndpointOps s pid bid eid).1 pid bid eid).2.2 = 0) ∧
    (∀ (s : List String) (pid bid ident : String), ∃ nm,
      (ensure_role honestRoleOps s pid bid ident).2.1 = .ok (some nm) ∧
      (ensure_role honestRoleOps (ensure_role honestRoleOps s pid bid ident).1 pid bid
        ident).2.1 = .ok (some nm) ∧
      createCalls
        (ensure_role honestRoleOps (ensure_role honestRoleOps s pid bid ident).1 pid bid
          ident).2.2 = 0) := by
  refine ⟨?_, ?_, ?_, ?_⟩
  · intro s pid
    refine ⟨"projects/" ++ pid, ?_⟩
    by_cases h : ("projects/" ++ pid) ∈ s
    · have h1 : ensure_project honestProjectOps s pid =
          (s, .ok ("projects/" ++ pid), [.getCall]) := by
        rw [ensure_project_honest, if_pos h]
      refine ⟨by rw [h1], ?_, ?_⟩ <;> simp only [h1] <;> rfl
    · have h1 : ensure_project honestProjectOps s pid =
          (("projects/" ++ pid) :: s, .ok ("projects/" ++ pid),
            [.getCall, .createCall]) := by
        rw [ensure_project_honest, if_neg h]
      have h2 : ensure_project honestProjectOps (("projects/" ++ pid) :: s) pid =
          ((("projects/" ++ pid) :: s), .ok ("projects/" ++ pid), [.getCall]) := by
        rw [ensure_project_honest, if_pos (List.mem_cons_self _ _)]
      refine ⟨by rw [h1], ?_, ?_⟩ <;> simp only [h1] <;> rw [h2] <;> rfl
  · intro s pid bid
    refine ⟨"projects/" ++ pid ++ "/branches/" ++ bid, ?_⟩
    by_cases h : ("projects/" ++ pid ++ "/branches/" ++ bid) ∈ s
    · have h1 : ensure_branch honestBranchOps s pid bid =
          (s, .ok ("projects/" ++ pid ++ "/branches/" ++ bid), [.getCall]) := by
        rw [ensure_branch_honest, if_pos h]
      refine ⟨by rw [h1], ?_, ?_⟩ <;> simp only [h1] <;> rfl
    · have h1 : ensure_branch honestBranchOps s pid bid =
          (("projects/" ++ pid ++ "/branches/" ++ bid) :: s,
            .ok ("projects/" ++ pid ++ "/branches/" ++ bid), [.getCall, .createCall]) := by
        rw [ensure_branch_honest, if_neg h]
      have h2 : ensure_branch honestBranchOps
            (("projects/" ++ pid ++ "/branches/" ++ bid) :: s) pid bid =
          ((("projects/" ++ pid ++ "/branches/" ++ bid) :: s),
            .ok ("projects/" ++ pid ++ "/branches/" ++ bid), [.getCall]) := by
        rw [ensure_branch_honest, if_pos (List.mem_cons_self _ _)]
      refine ⟨by rw [h1], ?_, ?_⟩ <;> simp only [h1] <;> rw [h2] <;> rfl
  · intro s pid bid eid
    refine ⟨"projects/" ++ pid ++ "/branches/" ++ bid ++ "/endpoints/" ++ eid, ?_⟩
    by_cases h : ("projects/" ++ pid ++ "/branches/" ++ bid ++ "/endpoints/" ++ eid) ∈ s
    · have h1 : ensure_endpoint honestEndpointOps s pid bid eid =
          (s, .ok ("projects/" ++ pid ++ "/branches/" ++ bid ++ "/endpoints/" ++ eid),
            [.getCall]) := by
        rw [ensure_endpoint_honest, if_pos h]
      refine ⟨by rw [h1], ?_, ?_⟩ <;> simp only [h1] <;> rfl
    · have h1 : ensure_endpoint honestEndpointOps s pid bid eid =
          (("projects/" ++ pid ++ "/branches/" ++ bid ++ "/endpoints/" ++ eid) :: s,
            .ok ("projects/" ++ pid ++ "/branches/" ++ bid ++ "/endpoints/" ++ eid),
            [.getCall, .createCall]) := by
        rw [ensure_endpoint_honest, if_neg h]
      have h2 : ensure_endpoint honestEndpointOps
            (("projects/" ++ pid ++ "/branches/" ++ bid ++ "/endpoints/" ++ eid) :: s)
            pid bid eid =
          ((("projects/" ++ pid ++ "/branches/" ++ bid ++ "/endpoints/" ++ eid) :: s),
            .ok ("projects/" ++ pid ++ "/branches/" ++ bid ++ "/endpoints/" ++ eid),
            [.getCall]) := by
        rw [ensure_endpoint_honest, if_pos (List.mem_cons_self _ _)]
      refine ⟨by rw [h1], ?_, ?_⟩ <;> simp only [h1] <;> rw [h2] <;> rfl
  · intro s pid bid ident
    refine ⟨"projects/" ++ pid ++ "/branches/" ++ bid ++ "/roles/" ++ roleIdStr ident, ?_⟩
    by_cases h : ("projects/" ++ pid ++ "/branches/" ++ bid ++ "/roles/" ++ roleIdStr ident) ∈ s
    · have h1 : ensure_role honestRoleOps s pid bid ident =
          (s, .ok
              (some ("projects/" ++ pid ++ "/branches/" ++ bid ++ "/roles/" ++
                roleIdStr ident)),
            [.getCall]) := by
        rw [ensure_role_honest, if_pos h]
      refine ⟨by rw [h1], ?_, ?_⟩ <;> simp only [h1] <;> rfl
    · have h1 : ensure_role honestRoleOps s pid bid ident =
          (("projects/" ++ pid ++ "/branches/" ++ bid ++ "/roles/" ++ roleIdStr ident) :: s,
            .ok
              (some ("projects/" ++ pid ++ "/branches/" ++ bid ++ "/roles/" ++
                roleIdStr ident)),
            [.getCall, .createCall]) := by
        rw [ensure_role_honest, if_neg h]
      have h2 : ensure_role honestRoleOps
            (("projects/" ++ pid ++ "/branches/" ++ bid ++ "/roles/" ++ roleIdStr ident) :: s)
            pid bid ident =
          ((("projects/" ++ pid ++ "/branches/" ++ bid ++ "/roles/" ++ roleIdStr ident) :: s),
            .ok
              (some ("projects/" ++ pid ++ "/branches/" ++ bid ++ "/roles/" ++
                roleIdStr ident)),
            [.getCall]) := by
        rw [ensure_role_honest, if_pos (List.mem_cons_self _ _)]
      refine ⟨by rw [h1], ?_, ?_⟩ <;> simp only [h1] <;> rw [h2] <;> rfl

/-- C5 witness: a second call for the same endpoint 10 minutes after a mint
at time 0 returns the identical cached token with no new mint, even when a
fresh mint would fail. -/
theorem claim_C5_token_cache_witness :
    getToken (.error ()) 10
        ⟨some "tok", some ((0 : Int) + 55), some "projects/p/branches/b/endpoints/default"⟩
        "projects/p/branches/b/endpoints/default" =
      (some "tok",
        ⟨some "tok", some ((0 : Int) + 55), some "projects/p/branches/b/endpoints/default"⟩,
        0) :=
  claim_C5_token_cache.2.2.2.2.2.2.1 "tok" 0 10 "projects/p/branches/b/endpoints/default"
    (.error ()) (by decide) (by decide) (by decide)

end TodoApp
